import Mathlib

/-!
# Verification of the facebook-messenger webhook adapter

Shallow embedding of `src/messenger.go` (package `messenger`): the event
dispatcher (`ServeHTTP`), webhook verification (`VerifyWebhook`), request and
response decoding (`DecodeRequest`, `decodeResponse`) and the outbound send
path (`SendMessage`, `SendTextMessage`).

The repository's type declarations (the `Facebook*` structs, `NewTextMessage`
and `rawFBResponse`) live in a file that is not part of `src/`; those data
carriers are modelled from the spec and marked as such.  All control flow is
translated from `src/messenger.go`.
-/

set_option linter.dupNamespace false
set_option linter.unusedVariables false

namespace Messenger

/-- Modelled from the spec: inbound message payload ("message content (text)");
the struct declaration is not in `src/`.  Its fields are irrelevant to
dispatch, which only moves the value around. -/
structure FacebookMessage where
  Text : String
  deriving Repr, DecidableEq

/-- Modelled from the spec: delivery-report payload; declaration not in `src/`. -/
structure FacebookDelivery where
  Watermark : Int
  deriving Repr, DecidableEq

/-- Modelled from the spec: postback payload ("structured button-click
payload"); declaration not in `src/`. -/
structure FacebookPostback where
  Payload : String
  deriving Repr, DecidableEq

/-- Modelled from the spec: opt-in payload; declaration not in `src/`. -/
structure FacebookOptin where
  Ref : String
  deriving Repr, DecidableEq

/-- Modelled from the spec: read-receipt payload; declaration not in `src/`. -/
structure FacebookRead where
  Watermark : Int
  deriving Repr, DecidableEq

/-- Modelled from the spec: a party of a messaging event, carrying an integer
id (`msg.Sender.ID` in `ServeHTTP`). -/
structure FacebookUser where
  ID : Int
  deriving Repr, DecidableEq

/-- Modelled from the spec ("Messaging Event: sender id, recipient id,
timestamp, and exactly one populated variant among {Message, Delivery,
Postback, Optin, Read}"): one messaging event.  A `nil` pointer field of the
Go struct is `none`; a populated variant is `some`.  The field set matches the
uses in `ServeHTTP` (`msg.Sender.ID`, `msg.Message`, `msg.Delivery`,
`msg.Postback`, `msg.Optin`, `msg.Read`). -/
structure FacebookMessaging where
  Sender : FacebookUser
  Recipient : FacebookUser
  Timestamp : Int
  Message : Option FacebookMessage
  Delivery : Option FacebookDelivery
  Postback : Option FacebookPostback
  Optin : Option FacebookOptin
  Read : Option FacebookRead
  deriving Repr, DecidableEq

/-- Modelled from the spec: an Entry is an ordered sequence of messaging
events (`entry.Messaging` in `ServeHTTP`). -/
structure FacebookEntry where
  Messaging : List FacebookMessaging
  deriving Repr, DecidableEq

/-- Modelled from the spec: the inbound request is an ordered sequence of
entries (`fbRq.Entry` in `ServeHTTP`).  The zero value of the Go struct has a
`nil` (empty) `Entry` slice. -/
structure FacebookRequest where
  Entry : List FacebookEntry
  deriving Repr, DecidableEq

/-- The adapter instance (`Messenger` struct of `src/messenger.go` lines
16-42).  Handler fields are functions-or-nil in Go; dispatch only tests them
against `nil` and records which one it invokes with which arguments, so each
handler is embedded as a `Bool` (`true` = registered / non-nil) and an
invocation is reified as an `Invocation` value.  `apiURL` is the per-instance
cached URL (zero value `""`). -/
structure Messenger where
  AccessToken : String
  VerifyToken : String
  PageID : String
  apiURL : String
  MessageReceived : Bool
  DeliveryReceived : Bool
  PostbackReceived : Bool
  OptinReceived : Bool
  ReadReceived : Bool
  deriving Repr, DecidableEq

/-- One handler invocation fired by the dispatcher: which handler, the sender
id passed as `userID`, and the dereferenced payload.  (Each Go invocation also
receives the adapter pointer `msng` itself, which is the same for every event
of a request and is not recorded.) -/
inductive Invocation where
  | message (userID : Int) (m : FacebookMessage)
  | delivery (userID : Int) (d : FacebookDelivery)
  | postback (userID : Int) (p : FacebookPostback)
  | optin (userID : Int) (p : FacebookOptin)
  | read (userID : Int) (p : FacebookRead)
  deriving Repr, DecidableEq

/-- The `switch` of `ServeHTTP` (src/messenger.go lines 99-114) for a single
messaging event: the guards `msg.X != nil && msng.XReceived != nil` are tested
in source order and the first true guard fires its handler; if no guard is
true the event produces nothing.  Returns the invocation fired, if any. -/
def dispatchEvent (msng : Messenger) (msg : FacebookMessaging) : Option Invocation :=
  let userID := msg.Sender.ID
  match msg.Message, msng.MessageReceived with
  | some m, true => some (.message userID m)
  | _, _ =>
  match msg.Delivery, msng.DeliveryReceived with
  | some d, true => some (.delivery userID d)
  | _, _ =>
  match msg.Postback, msng.PostbackReceived with
  | some p, true => some (.postback userID p)
  | _, _ =>
  match msg.Optin, msng.OptinReceived with
  | some p, true => some (.optin userID p)
  | _, _ =>
  match msg.Read, msng.ReadReceived with
  | some p, true => some (.read userID p)
  | _, _ => none

/-- The nested `for` loops of `ServeHTTP` (src/messenger.go lines 96-116):
entries in array order, events in array order, each event dispatched through
the `switch`.  The result is the sequence of handler invocations fired. -/
def dispatchRequest (msng : Messenger) (fbRq : FacebookRequest) : List Invocation :=
  (fbRq.Entry.map (fun entry => entry.Messaging.filterMap (dispatchEvent msng))).flatten

/-- `VerifyWebhook` (src/messenger.go lines 120-129).  `formValue` embeds
`r.FormValue`; the returned string is the response body written by `w.Write`
(empty when the handler falls through without writing). -/
def VerifyWebhook (msng : Messenger) (formValue : String → String) : String :=
  if formValue "hub.mode" = "subscribe" then
    if formValue "hub.verify_token" = msng.VerifyToken then
      formValue "hub.challenge"
    else ""
  else ""

/-- `r.FormValue` over a parsed query: first value listed for the key, `""`
when the key is absent (the behaviour of Go's `net/http` form lookup). -/
def formValueOf (pairs : List (String × String)) (key : String) : String :=
  match pairs.find? (fun p => p.1 = key) with
  | some p => p.2
  | none => ""

/-- A decode error from `encoding/json` (opaque to this code: `ServeHTTP`
discards it and `DecodeRequest` returns it unexamined). -/
structure DecodeErr where
  msg : String
  deriving Repr, DecidableEq

/-- `ServeHTTP` (src/messenger.go lines 92-117).  `decoded` is the result of
`DecodeRequest` on the inbound body; the error is discarded (`fbRq, _ := ...`)
so a failed decode leaves `fbRq` the zero value (empty `Entry`).  The result
is the verification response body together with the fired invocations; the
handler has no error channel to its caller. -/
def ServeHTTP (msng : Messenger) (decoded : Except DecodeErr FacebookRequest)
    (formValue : String → String) : String × List Invocation :=
  let fbRq : FacebookRequest :=
    match decoded with
    | .ok r => r
    | .error _ => { Entry := [] }
  (VerifyWebhook msng formValue, dispatchRequest msng fbRq)

/-- A candidate invocation for one variant: non-empty exactly when the variant
is populated and its handler is registered. -/
def candidate {α : Type} (o : Option α) (registered : Bool) (f : α → Invocation) :
    List Invocation :=
  match o, registered with
  | some x, true => [f x]
  | _, _ => []

/-- The variants that are both populated and have a registered handler, in the
fixed priority order {Message, Delivery, Postback, Optin, Read}. -/
def registeredCandidates (msng : Messenger) (msg : FacebookMessaging) : List Invocation :=
  let userID := msg.Sender.ID
  candidate msg.Message msng.MessageReceived (.message userID) ++
  candidate msg.Delivery msng.DeliveryReceived (.delivery userID) ++
  candidate msg.Postback msng.PostbackReceived (.postback userID) ++
  candidate msg.Optin msng.OptinReceived (.optin userID) ++
  candidate msg.Read msng.ReadReceived (.read userID)

/-- Spec-side dispatch contract, written from the amended words: among the
variants that are populated and have a registered handler, the first in
priority order fires; a populated variant with an unregistered handler is
passed over. -/
def specDispatch (msng : Messenger) (msg : FacebookMessaging) : Option Invocation :=
  (registeredCandidates msng msg).head?

theorem dispatchEvent_eq_specDispatch (msng : Messenger) (msg : FacebookMessaging) :
    dispatchEvent msng msg = specDispatch msng msg := by
  obtain ⟨⟨sid⟩, ⟨rid⟩, ts, om, od, op, oo, orr⟩ := msg
  obtain ⟨tok, vt, pid, au, b1, b2, b3, b4, b5⟩ := msng
  cases om <;> cases od <;> cases op <;> cases oo <;> cases orr <;>
    cases b1 <;> cases b2 <;> cases b3 <;> cases b4 <;> cases b5 <;> rfl

theorem candidate_eq_nil {α : Type} (o : Option α) (b : Bool) (f : α → Invocation)
    (h : o.isSome = true → b = false) : candidate o b f = [] := by
  cases o <;> cases b <;> simp_all [candidate]

/-- Adapter with only the delivery handler registered, for the dispatch
priority counterexample. -/
def deliveryOnlyMsng : Messenger :=
  { AccessToken := "", VerifyToken := "", PageID := "", apiURL := "",
    MessageReceived := false, DeliveryReceived := true, PostbackReceived := false,
    OptinReceived := false, ReadReceived := false }

/-- Event with both Message and Delivery populated (platform contract
violation the claim explicitly covers). -/
def msgAndDeliveryEvent : FacebookMessaging :=
  { Sender := ⟨7⟩, Recipient := ⟨8⟩, Timestamp := 0,
    Message := some ⟨"hi"⟩, Delivery := some ⟨42⟩,
    Postback := none, Optin := none, Read := none }

/-- C1 (counterexample): the claim says that when the first populated variant
in priority order (here Message) has a nil handler, the event is skipped and
no later-priority variant's handler fires.  On the code, an event with Message
and Delivery populated and only `DeliveryReceived` registered fires the
delivery handler: the guard `msg.Message != nil && msng.MessageReceived != nil`
is false, so the `switch` falls through to the delivery case. -/
theorem dispatch_priority_counterexample :
    msgAndDeliveryEvent.Message.isSome = true ∧
    deliveryOnlyMsng.MessageReceived = false ∧
    dispatchEvent deliveryOnlyMsng msgAndDeliveryEvent =
      some (.delivery 7 ⟨42⟩) := by
  refine ⟨rfl, rfl, rfl⟩

/-- C1 (amended): for every messaging event, the dispatcher fires the handler
of the first variant in the fixed priority order {Message, Delivery, Postback,
Optin, Read} that is both populated and has a registered handler; a populated
variant whose handler is nil is passed over (a later-priority populated
variant's registered handler fires instead), and the event is dropped only if
no populated variant has a registered handler. -/
theorem dispatch_fires_first_registered_populated (msng : Messenger)
    (msg : FacebookMessaging) :
    dispatchEvent msng msg = (registeredCandidates msng msg).head? :=
  dispatchEvent_eq_specDispatch msng msg

/-- C4: an event in which every populated variant has an unregistered handler
(this covers both the no-variant-populated case and the
populated-variant-without-handler case) produces no invocation; dispatch has
no error channel, so nothing is surfaced. -/
theorem unhandled_event_dropped_silently (msng : Messenger) (msg : FacebookMessaging)
    (hm : msg.Message.isSome = true → msng.MessageReceived = false)
    (hd : msg.Delivery.isSome = true → msng.DeliveryReceived = false)
    (hp : msg.Postback.isSome = true → msng.PostbackReceived = false)
    (ho : msg.Optin.isSome = true → msng.OptinReceived = false)
    (hr : msg.Read.isSome = true → msng.ReadReceived = false) :
    dispatchEvent msng msg = none := by
  rw [dispatchEvent_eq_specDispatch]
  unfold specDispatch registeredCandidates
  simp only [candidate_eq_nil _ _ _ hm, candidate_eq_nil _ _ _ hd, candidate_eq_nil _ _ _ hp,
    candidate_eq_nil _ _ _ ho, candidate_eq_nil _ _ _ hr, List.append_nil, List.head?]

/-- C4 witness: a concrete event with only Message populated and no handler
registered is dropped. -/
theorem unhandled_event_dropped_silently_witness :
    dispatchEvent
      { AccessToken := "", VerifyToken := "", PageID := "", apiURL := "",
        MessageReceived := false, DeliveryReceived := false, PostbackReceived := false,
        OptinReceived := false, ReadReceived := false }
      { Sender := ⟨1⟩, Recipient := ⟨2⟩, Timestamp := 0,
        Message := some ⟨"hello"⟩, Delivery := none, Postback := none,
        Optin := none, Read := none } = none :=
  unhandled_event_dropped_silently _ _
    (fun _ => rfl) (fun h => by simp_all) (fun h => by simp_all)
    (fun h => by simp_all) (fun h => by simp_all)

/-- C5: a webhook request containing exactly one messaging event whose only
populated variant is Message, with `MessageReceived` registered, fires exactly
one invocation: `MessageReceived` with the event's sender id and the Message
payload.  No other handler fires (the invocation list is exactly that
singleton). -/
theorem message_event_single_invocation (msng : Messenger) (fbRq : FacebookRequest)
    (msg : FacebookMessaging) (m : FacebookMessage)
    (hEntry : fbRq.Entry = [{ Messaging := [msg] }])
    (hMsg : msg.Message = some m)
    (hD : msg.Delivery = none) (hP : msg.Postback = none)
    (hO : msg.Optin = none) (hR : msg.Read = none)
    (hReg : msng.MessageReceived = true) :
    dispatchRequest msng fbRq = [.message msg.Sender.ID m] := by
  simp [dispatchRequest, hEntry, dispatchEvent, hMsg, hReg]

/-- Adapter with every handler registered, for the C5 witness. -/
def allHandlersMsng : Messenger :=
  { AccessToken := "", VerifyToken := "", PageID := "", apiURL := "",
    MessageReceived := true, DeliveryReceived := true, PostbackReceived := true,
    OptinReceived := true, ReadReceived := true }

/-- Event with only the Message variant populated, for the C5 witness. -/
def messageOnlyEvent : FacebookMessaging :=
  { Sender := ⟨5⟩, Recipient := ⟨6⟩, Timestamp := 0,
    Message := some ⟨"hey"⟩, Delivery := none, Postback := none,
    Optin := none, Read := none }

theorem message_event_single_invocation_witness :
    dispatchRequest allHandlersMsng { Entry := [{ Messaging := [messageOnlyEvent] }] } =
      [.message 5 ⟨"hey"⟩] :=
  message_event_single_invocation _ _ _ _ rfl rfl rfl rfl rfl rfl rfl

/-- C6: when the inbound body fails to decode, `ServeHTTP` discards the error
(`fbRq, _ := DecodeRequest(r)`) and proceeds with the zero-value request, so
it dispatches zero events; its return carries no error channel, so nothing is
surfaced to the caller. -/
theorem serveHTTP_decode_error_dispatches_nothing (msng : Messenger) (e : DecodeErr)
    (fv : String → String) :
    ServeHTTP msng (.error e) fv = (VerifyWebhook msng fv, []) := by
  simp [ServeHTTP, dispatchRequest]

/-- Adapter configured with verify token "abc", for the C2 scenarios. -/
def abcMsng : Messenger :=
  { AccessToken := "", VerifyToken := "abc", PageID := "", apiURL := "",
    MessageReceived := false, DeliveryReceived := false, PostbackReceived := false,
    OptinReceived := false, ReadReceived := false }

/-- The parsed form of the query
`hub.mode=subscribe&hub.verify_token=abc&hub.challenge=999`. -/
def goodQuery : List (String × String) :=
  [("hub.mode", "subscribe"), ("hub.verify_token", "abc"), ("hub.challenge", "999")]

/-- The parsed form of the query
`hub.mode=subscribe&hub.verify_token=xyz&hub.challenge=999`. -/
def badTokenQuery : List (String × String) :=
  [("hub.mode", "subscribe"), ("hub.verify_token", "xyz"), ("hub.challenge", "999")]

/-- C2: `VerifyWebhook` writes exactly the literal `hub.challenge` value when
`hub.mode` is "subscribe" and `hub.verify_token` equals the configured token,
and writes nothing (empty body) for every other combination, including missing
parameters (`r.FormValue` yields "" for a missing key, which fails the
comparisons); with token "abc" the spec's two concrete scenarios yield "999"
and "". -/
theorem verifyWebhook_challenge_or_silent (msng : Messenger) (fv : String → String) :
    (fv "hub.mode" = "subscribe" → fv "hub.verify_token" = msng.VerifyToken →
      VerifyWebhook msng fv = fv "hub.challenge") ∧
    (¬(fv "hub.mode" = "subscribe" ∧ fv "hub.verify_token" = msng.VerifyToken) →
      VerifyWebhook msng fv = "") ∧
    VerifyWebhook abcMsng (formValueOf goodQuery) = "999" ∧
    VerifyWebhook abcMsng (formValueOf badTokenQuery) = "" := by
  refine ⟨fun h1 h2 => by simp [VerifyWebhook, h1, h2], fun h => ?_, by decide, by decide⟩
  by_cases h1 : fv "hub.mode" = "subscribe"
  · by_cases h2 : fv "hub.verify_token" = msng.VerifyToken
    · exact absurd ⟨h1, h2⟩ h
    · simp [VerifyWebhook, h1, h2]
  · simp [VerifyWebhook, h1]

theorem verifyWebhook_challenge_or_silent_witness :
    VerifyWebhook abcMsng (formValueOf goodQuery) = formValueOf goodQuery "hub.challenge" :=
  (verifyWebhook_challenge_or_silent abcMsng (formValueOf goodQuery)).1 (by decide) (by decide)

/-- Modelled from the spec: the platform error payload of a send response
("a platform error (code, message)"); the struct declaration and its
error-conversion method are not in `src/`.  Per the spec the failure carries
the platform's message and code. -/
structure FacebookError where
  Message : String
  Code : Int
  deriving Repr, DecidableEq

/-- Modelled from the spec: the raw JSON body of a send response, either
success ids or an error object, mirroring the fields `decodeResponse` reads
(`fbResp.MessageID`, `fbResp.RecipientID`, `fbResp.Error`); the struct
declaration is not in `src/`. -/
structure rawFBResponse where
  MessageID : String
  RecipientID : String
  Error : Option FacebookError
  deriving Repr, DecidableEq

/-- Modelled from the spec: the success value of a send
("success (message id, recipient id)"); declaration not in `src/`.  The Go
zero value has empty ids. -/
structure FacebookResponse where
  MessageID : String
  RecipientID : String
  deriving Repr, DecidableEq

/-- Errors returned by `decodeResponse`: a JSON decode failure, or the
platform error converted by `fbResp.Error.Error()` (carrying the platform's
message and code, per the spec). -/
inductive SendError where
  | decodeFailure (e : DecodeErr)
  | fbError (message : String) (code : Int)
  deriving Repr, DecidableEq

/-- `decodeResponse` (src/messenger.go lines 142-158).  `body` is the result
of the stdlib JSON decode of the response body; the Go `(FacebookResponse,
error)` return is a value paired with an optional error. -/
def decodeResponse (body : Except DecodeErr rawFBResponse) :
    FacebookResponse × Option SendError :=
  match body with
  | .error e => ({ MessageID := "", RecipientID := "" }, some (.decodeFailure e))
  | .ok fbResp =>
    match fbResp.Error with
    | some err => ({ MessageID := "", RecipientID := "" },
        some (.fbError err.Message err.Code))
    | none => ({ MessageID := fbResp.MessageID, RecipientID := fbResp.RecipientID }, none)

/-- C3: a well-formed send-response body containing an error object yields the
zero-value response with a non-nil error carrying the platform's message and
code (never a success result); a body with no error object yields the
response's ids with a nil error. -/
theorem decodeResponse_error_vs_success (fbResp : rawFBResponse) :
    (∀ err, fbResp.Error = some err →
      decodeResponse (.ok fbResp) =
        ({ MessageID := "", RecipientID := "" }, some (.fbError err.Message err.Code))) ∧
    (fbResp.Error = none →
      decodeResponse (.ok fbResp) =
        ({ MessageID := fbResp.MessageID, RecipientID := fbResp.RecipientID }, none)) := by
  refine ⟨fun err h => ?_, fun h => ?_⟩ <;> simp [decodeResponse, h]

/-- A send-response body carrying a platform error object, for the C3 witness. -/
def oauthErrBody : rawFBResponse :=
  { MessageID := "", RecipientID := "",
    Error := some { Message := "Invalid OAuth access token.", Code := 190 } }

theorem decodeResponse_error_vs_success_witness :
    decodeResponse (.ok oauthErrBody) =
      ({ MessageID := "", RecipientID := "" },
        some (.fbError "Invalid OAuth access token." 190)) :=
  (decodeResponse_error_vs_success oauthErrBody).1 _ rfl

/-- The inbound request body as an owned resource: its remaining contents and
whether it has been closed. -/
structure Body where
  contents : String
  closed : Bool
  deriving Repr, DecidableEq

/-- `DecodeRequest` (src/messenger.go lines 134-139).  `parse` embeds the
stdlib JSON decoder applied to the body's contents (which the decoder
consumes); `defer r.Body.Close()` closes the body on every path.  On decode
failure the Go function returns the zero-value request together with the
error. -/
def DecodeRequest (parse : String → Except DecodeErr FacebookRequest) (body : Body) :
    (FacebookRequest × Option DecodeErr) × Body :=
  let result :=
    match parse body.contents with
    | .ok fbRq => (fbRq, none)
    | .error e => (({ Entry := [] } : FacebookRequest), some e)
  (result, { contents := "", closed := true })

/-- C7: `DecodeRequest` consumes the body fully and closes it on all paths,
including decode failure; on decode failure it returns the zero-value request
together with the decode error. -/
theorem decodeRequest_closes_body (parse : String → Except DecodeErr FacebookRequest)
    (body : Body) :
    ((DecodeRequest parse body).2.closed = true ∧
      (DecodeRequest parse body).2.contents = "") ∧
    (∀ e, parse body.contents = .error e →
      (DecodeRequest parse body).1 = ({ Entry := [] }, some e)) := by
  refine ⟨⟨rfl, rfl⟩, fun e h => ?_⟩
  simp [DecodeRequest, h]

theorem decodeRequest_closes_body_witness :
    (DecodeRequest (fun _ => .error ⟨"unexpected end of JSON input"⟩)
        { contents := "\x7b\"entry\":", closed := false }).1 =
      ({ Entry := [] }, some ⟨"unexpected end of JSON input"⟩) :=
  (decodeRequest_closes_body (fun _ => .error ⟨"unexpected end of JSON input"⟩)
    { contents := "\x7b\"entry\":", closed := false }).2 _ rfl

/-- The platform base URL constant `apiURL` (src/messenger.go line 10). -/
def apiURL : String := "https://graph.facebook.com/v2.6/"

/-- The URL-construction prefix of `SendMessage` (src/messenger.go lines
63-69): when the instance cache `msng.apiURL` is empty it is filled from the
process-wide `TestURL` override (if non-empty) or the platform base URL, plus
`"me/messages?access_token=" + msng.AccessToken`; otherwise it is left
unchanged.  `testURL` is the value of the global `TestURL` at call time. -/
def ensureApiURL (testURL : String) (msng : Messenger) : Messenger :=
  if msng.apiURL = "" then
    if testURL ≠ "" then
      { msng with apiURL := testURL ++ "me/messages?access_token=" ++ msng.AccessToken }
    else
      { msng with apiURL := apiURL ++ "me/messages?access_token=" ++ msng.AccessToken }
  else msng

theorem ensureApiURL_fresh (testURL : String) (msng : Messenger) (h : msng.apiURL = "") :
    (ensureApiURL testURL msng).apiURL =
      (if testURL ≠ "" then testURL else apiURL) ++
        "me/messages?access_token=" ++ msng.AccessToken := by
  by_cases ht : testURL = "" <;> simp [ensureApiURL, h, ht]

theorem ensureApiURL_cached (testURL : String) (msng : Messenger) (h : msng.apiURL ≠ "") :
    ensureApiURL testURL msng = msng := by
  simp [ensureApiURL, h]

theorem sendURL_ne_empty (a b : String) :
    a ++ "me/messages?access_token=" ++ b ≠ "" := by
  intro hEq
  have hl := congrArg String.length hEq
  rw [String.length_append, String.length_append] at hl
  have h25 : ("me/messages?access_token=" : String).length = 25 := rfl
  have h0 : ("" : String).length = 0 := rfl
  rw [h25, h0] at hl
  omega

/-- A JSON value, for the serialized message envelope. -/
inductive Json where
  | str (s : String)
  | num (n : Int)
  | obj (fields : List (String × Json))

/-- An outbound HTTP request as `SendMessage` assembles it: method, target
URL, `Content-Type` header and serialized body. -/
structure OutRequest where
  method : String
  url : String
  contentType : String
  body : Json

/-- Modelled from the spec: the recipient part of the outbound envelope,
serializing to `\x7b"id": R\x7d`; declaration not in `src/`. -/
structure MessageRecipient where
  ID : Int

/-- Modelled from the spec: the text content part of the outbound envelope,
serializing to `\x7b"text": T\x7d`; declaration not in `src/`. -/
structure TextContent where
  Text : String

/-- Modelled from the spec: the minimal text message (`NewTextMessage` result;
declaration not in `src/`), serializing to the fixed envelope
`\x7brecipient:\x7bid\x7d, message:\x7btext\x7d\x7d`. -/
structure TextMessage where
  Recipient : MessageRecipient
  Message : TextContent

/-- Modelled from the spec: `NewTextMessage(receiverID, text)` constructs the
minimal text message for that recipient and content; not in `src/`. -/
def NewTextMessage (receiverID : Int) (text : String) : TextMessage :=
  { Recipient := { ID := receiverID }, Message := { Text := text } }

/-- Modelled from the spec: the JSON serialization (`json.Marshal`) of a text
message; the struct tags are not in `src/`, the envelope is the spec's
`\x7b"recipient":\x7b"id":R\x7d,"message":\x7b"text":T\x7d\x7d`. -/
def TextMessage.marshal (m : TextMessage) : Json :=
  .obj [("recipient", .obj [("id", .num m.Recipient.ID)]),
        ("message", .obj [("text", .str m.Message.Text)])]

/-- `SendMessage` (src/messenger.go lines 62-82) up to the transport call:
resolves and caches the target URL, serializes the message and assembles the
POST request with `Content-Type: application/json`.  The transport round trip
and response decoding are embedded separately (`prepareRequest`,
`decodeResponse`). -/
def SendMessage (testURL : String) (msng : Messenger) (m : TextMessage) :
    Messenger × OutRequest :=
  let resolved := ensureApiURL testURL msng
  (resolved,
    { method := "POST", url := resolved.apiURL,
      contentType := "application/json", body := m.marshal })

/-- `SendTextMessage` (src/messenger.go lines 86-89): builds the minimal text
message via `NewTextMessage` and delegates to `SendMessage`. -/
def SendTextMessage (testURL : String) (msng : Messenger) (receiverID : Int)
    (text : String) : Messenger × OutRequest :=
  SendMessage testURL msng (NewTextMessage receiverID text)

/-- C8: on the first `SendMessage` call of an instance (cached `apiURL`
empty), the target URL is the test override base (when non-empty) or the
platform base, plus `"me/messages?access_token=" + AccessToken`; the URL is
cached on the instance, and a subsequent call reuses it unchanged whatever the
override is then. -/
theorem sendMessage_url_lazily_cached (testURL testURL2 : String) (msng : Messenger)
    (m m2 : TextMessage) (h : msng.apiURL = "") :
    (SendMessage testURL msng m).2.url =
      (if testURL ≠ "" then testURL else apiURL) ++
        "me/messages?access_token=" ++ msng.AccessToken ∧
    (SendMessage testURL msng m).1.apiURL = (SendMessage testURL msng m).2.url ∧
    SendMessage testURL2 (SendMessage testURL msng m).1 m2 =
      ((SendMessage testURL msng m).1,
        { method := "POST", url := (SendMessage testURL msng m).2.url,
          contentType := "application/json", body := m2.marshal }) := by
  have hfresh := ensureApiURL_fresh testURL msng h
  have hne : (ensureApiURL testURL msng).apiURL ≠ "" := by
    rw [hfresh]; exact sendURL_ne_empty _ _
  have hcache := ensureApiURL_cached testURL2 (ensureApiURL testURL msng) hne
  refine ⟨hfresh, rfl, ?_⟩
  simp [SendMessage, hcache]

/-- Adapter with access token "tok" and an empty URL cache, for the C8
witness. -/
def tokMsng : Messenger :=
  { AccessToken := "tok", VerifyToken := "", PageID := "", apiURL := "",
    MessageReceived := false, DeliveryReceived := false, PostbackReceived := false,
    OptinReceived := false, ReadReceived := false }

theorem sendMessage_url_lazily_cached_witness :
    (SendMessage "http://mock/" tokMsng (NewTextMessage 1 "a")).2.url =
      (if ("http://mock/" : String) ≠ "" then "http://mock/" else apiURL) ++
        "me/messages?access_token=" ++ tokMsng.AccessToken ∧
    (SendMessage "http://mock/" tokMsng (NewTextMessage 1 "a")).1.apiURL =
      (SendMessage "http://mock/" tokMsng (NewTextMessage 1 "a")).2.url ∧
    SendMessage "" (SendMessage "http://mock/" tokMsng (NewTextMessage 1 "a")).1
        (NewTextMessage 2 "b") =
      ((SendMessage "http://mock/" tokMsng (NewTextMessage 1 "a")).1,
        { method := "POST",
          url := (SendMessage "http://mock/" tokMsng (NewTextMessage 1 "a")).2.url,
          contentType := "application/json", body := (NewTextMessage 2 "b").marshal }) :=
  sendMessage_url_lazily_cached "http://mock/" "" tokMsng
    (NewTextMessage 1 "a") (NewTextMessage 2 "b") rfl

/-- C9: serializing the text message constructed for recipient R with content
T yields exactly the envelope `\x7b"recipient":\x7b"id":R\x7d,"message":\x7b"text":T\x7d\x7d`,
and `SendTextMessage` constructs exactly this minimal text message and
delegates sending to `SendMessage`. -/
theorem sendTextMessage_envelope (R : Int) (T : String) (testURL : String)
    (msng : Messenger) :
    (NewTextMessage R T).marshal =
      Json.obj [("recipient", Json.obj [("id", Json.num R)]),
        ("message", Json.obj [("text", Json.str T)])] ∧
    SendTextMessage testURL msng R T = SendMessage testURL msng (NewTextMessage R T) :=
  ⟨rfl, rfl⟩

/-- An error from `http.NewRequest` (invalid method or unparsable URL); the Go
function then returns a nil request alongside the error. -/
structure RequestErr where
  msg : String
  deriving Repr, DecidableEq

/-- Outcome of the request-construction step of `SendMessage`: either the
request with its `Content-Type` header set, or a nil-pointer dereference. -/
inductive SendPrep where
  | ready (req : OutRequest)
  | nilDereference

/-- The request-construction step of `SendMessage` (src/messenger.go lines
73-74): `req, err := http.NewRequest(...)` is followed unconditionally by
`req.Header.Set("Content-Type", "application/json")` with no check of `err`;
when construction fails, `req` is nil and the header write dereferences it. -/
def prepareRequest (newRequest : Except RequestErr OutRequest) : SendPrep :=
  match newRequest with
  | .ok req => .ready { req with contentType := "application/json" }
  | .error _ => .nilDereference

/-- C10: when request construction fails, `SendMessage` discards the error and
dereferences the nil request (the error is never returned to the caller); the
step completes normally only when construction succeeded. -/
theorem sendMessage_nil_request_dereference :
    (∀ e : RequestErr, prepareRequest (.error e) = SendPrep.nilDereference) ∧
    (∀ (newRequest : Except RequestErr OutRequest) (req : OutRequest),
      prepareRequest newRequest = .ready req → ∃ r, newRequest = .ok r) := by
  refine ⟨fun e => rfl, fun newRequest req h => ?_⟩
  cases newRequest with
  | ok r => exact ⟨r, rfl⟩
  | error e => exact absurd h (by simp [prepareRequest])

theorem sendMessage_nil_request_dereference_witness :
    prepareRequest (.error ⟨"net/http: nil Context"⟩) = SendPrep.nilDereference :=
  sendMessage_nil_request_dereference.1 ⟨"net/http: nil Context"⟩

end Messenger
